import Mathlib

/-!
Shallow embedding of the transaction/token utilities of the
Token-generator repository (src/src/utils.jsx and src/meteoraService.js).

JS numbers that are used as integers are modelled as Nat (or Int where a
sign matters); JS BigInt as Nat; a thrown JS error as the error side of
an Except; an async operation against the network as a function from the
attempt number (or a pool id) to an Except describing the outcome that
the environment would produce for that call.
-/

namespace TokenGen

/-- The string codes of WalletError.CODES in src/src/utils.jsx. -/
inductive Code where
  | WALLET_NOT_FOUND
  | WALLET_NOT_CONNECTED
  | INSUFFICIENT_BALANCE
  | TOKEN_CREATION_FAILED
  | POOL_CREATION_FAILED
  | TRANSACTION_FAILED
deriving DecidableEq, Repr

/-- A thrown JS error as seen by a catch block: WalletError instances carry
one of the codes above, plain `new Error(...)` and SDK errors carry none. -/
structure JsError where
  code : Option Code
deriving DecidableEq, Repr

/-- Classification of a chain-level failure, as the spec's taxonomy would
label it.  The source never inspects this field: it is carried only so that
theorems can speak about terminal versus transient failures. -/
inductive ErrClass where
  | transient
  | terminal
deriving DecidableEq, Repr

/-- Outcome of one run of `retryAsync` (src/src/utils.jsx lines 556-572):
the value returned or the error finally thrown (`none` models the
`throw lastError` with `lastError` still `undefined`), the argument of every
`sleep` call that was awaited, and the number of times `fn` was invoked. -/
structure RetryOutcome (ε α : Type) where
  result : Except (Option ε) α
  sleeps : List Nat
  attempts : Nat
deriving Repr

/-- The loop body of `retryAsync`: `remaining` is the number of loop
iterations still allowed (initially `maxAttempts`), `attempt` the 1-based
counter of the `for` loop.  On an error the loop sleeps `delayMs * attempt`
exactly when `attempt < maxAttempts`, i.e. when at least one iteration
remains. -/
def retryAux (fn : Nat → Except ε α) (delayMs : Nat) :
    Nat → Nat → RetryOutcome ε α
  | 0, _ => ⟨.error none, [], 0⟩
  | remaining + 1, attempt =>
    match fn attempt with
    | .ok a => ⟨.ok a, [], 1⟩
    | .error e =>
      match remaining with
      | 0 => ⟨.error (some e), [], 1⟩
      | r + 1 =>
        let rest := retryAux fn delayMs (r + 1) (attempt + 1)
        ⟨rest.result, delayMs * attempt :: rest.sleeps, rest.attempts + 1⟩

/-- `retryAsync(fn, maxAttempts = 3, delayMs = 1000)` of src/src/utils.jsx:
runs `fn` up to `maxAttempts` times, sleeping `delayMs * attempt` between
attempts, rethrowing the last error when all attempts fail.  Every caught
error is retried: the loop inspects nothing about the error it caught. -/
def retryAsync (fn : Nat → Except ε α) (maxAttempts : Nat) (delayMs : Nat) :
    RetryOutcome ε α :=
  retryAux fn delayMs maxAttempts 1

/-- An error carrying the spec's transient/terminal classification, for
theorems about how `retryAsync` treats each class. -/
structure ClassifiedErr where
  cls : ErrClass
deriving DecidableEq, Repr

/-! ## Token creation (src/src/utils.jsx createToken, validateTokenData) -/

/-- The `tokenData` object handed to `createToken` / `validateTokenData`.
The form (src/src/components.jsx) stores `decimals` as a number via
`parseInt`; `none` models the field being absent/undefined.  `supply` and
prices are used as integers in the claims considered here. -/
structure TokenData where
  name : String
  symbol : String
  supply : Nat
  decimals : Option Nat
  initialPrice : Option Int
deriving DecidableEq, Repr

/-- JS truthiness of the `decimals` field: `tokenData.decimals || 9` yields
9 both when the field is undefined and when it is 0. -/
def effDecimals (d : Option Nat) : Nat :=
  match d with
  | none => 9
  | some n => if n = 0 then 9 else n

/-- The base-unit amount minted by `createToken` (src/src/utils.jsx line
289): `BigInt(tokenData.supply) * BigInt(10 ** (tokenData.decimals || 9))`.
For 0 ≤ decimals ≤ 9 the float `10 ** decimals` is exact, so BigInt
arithmetic makes the product exact. -/
def baseUnits (supply : Nat) (d : Option Nat) : Nat :=
  supply * 10 ^ effDecimals d

/-- The per-field error messages collected by `validateTokenData`
(src/src/utils.jsx lines 613-642); `none` means no error for the field. -/
structure ValidationErrors where
  nameErr : Option String
  symbolErr : Option String
  supplyErr : Option String
  decimalsErr : Option String
  initialPriceErr : Option String
deriving DecidableEq, Repr

/-- `!s?.trim()`: after trimming leading and trailing whitespace the string
is empty exactly when every character is whitespace. -/
def isBlank (s : String) : Bool := s.toList.all (fun c => c.isWhitespace)

/-- `validateTokenData(tokenData)`.  Notably the decimals check is
`!tokenData.decimals || tokenData.decimals < 0 || tokenData.decimals > 9`,
so `decimals = 0` is falsy and rejected even though the message says the
valid range is 0 to 9.  The supply check `!supply || supply <= 0` rejects 0.
A present negative `initialPrice` is rejected, a zero one is falsy and
skips the check. -/
def validateTokenData (td : TokenData) : ValidationErrors :=
  { nameErr :=
      if isBlank td.name then some "Name is required" else none,
    symbolErr :=
      if isBlank td.symbol then some "Symbol is required"
      else if 10 < td.symbol.length then
        some "Symbol must be 10 characters or less"
      else none,
    supplyErr :=
      if td.supply = 0 then some "Supply must be a positive number" else none,
    decimalsErr :=
      match td.decimals with
      | none => some "Decimals must be between 0 and 9"
      | some n =>
        if n = 0 then some "Decimals must be between 0 and 9"
        else if 9 < n then some "Decimals must be between 0 and 9"
        else none,
    initialPriceErr :=
      match td.initialPrice with
      | none => none
      | some p =>
        if p = 0 then none
        else if p ≤ 0 then some "Initial price must be a positive number"
        else none }

/-- `validation.isValid`: true when no field collected an error. -/
def ValidationErrors.isValid (v : ValidationErrors) : Bool :=
  v.nameErr.isNone && v.symbolErr.isNone && v.supplyErr.isNone &&
    v.decimalsErr.isNone && v.initialPriceErr.isNone

/-- `LAMPORTS_PER_SOL` of @solana/web3.js. -/
def LAMPORTS_PER_SOL : Nat := 1000000000

/-- `requiredBalance * LAMPORTS_PER_SOL` in `createToken` with
`requiredBalance = 0.1`: the double product `0.1 * 1e9` rounds to exactly
100000000. -/
def requiredLamports : Nat := 100000000

/-- Environment for one run of `createToken`: the wallet connectivity test
`!wallet || !wallet.publicKey`, the lamport balance the connection returns,
and whether each downstream SDK call (createMint,
getOrCreateAssociatedTokenAccount, createMetadataAccountV3, mintTo)
succeeds. -/
structure CreateTokenEnv where
  connected : Bool
  balance : Nat
  mintOk : Bool
  tokenAccountOk : Bool
  metadataOk : Bool
  mintToOk : Bool
deriving DecidableEq, Repr

/-- What `createToken` returns on success (the fields relevant here). -/
structure CreateTokenResult where
  initialSupply : Nat
  decimals : Nat
deriving DecidableEq, Repr

/-- The body of the `try` block of `createToken` (src/src/utils.jsx lines
224-307): balance precheck throwing a WalletError with code
INSUFFICIENT_BALANCE when `balance < requiredBalance * LAMPORTS_PER_SOL`,
then the four SDK calls (whose failures carry no WalletError code), then
the result with `initialSupply = supply * 10 ** (decimals || 9)`.
The dead `if (!constants)` guard is omitted: `getConstants` either returns
a non-null object or itself throws. -/
def createTokenBody (env : CreateTokenEnv) (td : TokenData) :
    Except JsError CreateTokenResult :=
  if env.balance < requiredLamports then
    .error ⟨some Code.INSUFFICIENT_BALANCE⟩
  else if !env.mintOk then .error ⟨none⟩
  else if !env.tokenAccountOk then .error ⟨none⟩
  else if !env.metadataOk then .error ⟨none⟩
  else if !env.mintToOk then .error ⟨none⟩
  else .ok ⟨baseUnits td.supply td.decimals, effDecimals td.decimals⟩

/-- `createToken(wallet, tokenData)` (src/src/utils.jsx lines 216-315):
the wallet-connectivity check runs before the try block, so its
WALLET_NOT_CONNECTED error propagates unchanged; every error thrown inside
the try block is caught and re-thrown as a WalletError with code
TOKEN_CREATION_FAILED. -/
def createToken (env : CreateTokenEnv) (td : TokenData) :
    Except Code CreateTokenResult :=
  if !env.connected then .error Code.WALLET_NOT_CONNECTED
  else
    match createTokenBody env td with
    | .ok r => .ok r
    | .error _ => .error Code.TOKEN_CREATION_FAILED

/-! ## addPoolLiquidity (src/src/utils.jsx lines 383-450) -/

/-- `0.01 * LAMPORTS_PER_SOL`, the fee buffer added to the required SOL:
the double product `0.01 * 1e9` rounds to exactly 10000000. -/
def feeBufferLamports : Nat := 10000000

/-- Environment for one run of `addPoolLiquidity`: outcomes of the pool
load (itself run under `retryAsync(..., 3)`) and of the token-account
fetch, the two balances the connection reports, and the outcomes of the
`pool.addLiquidity` retries and of the final confirmation. -/
structure AddLiqEnv where
  connected : Bool
  poolLoad : Nat → Except JsError Unit
  tokenAccountOk : Bool
  tokenBalance : Nat
  solBalance : Nat
  addLiquidity : Nat → Except JsError Unit
  confirmOk : Bool

/-- The body of the `try` block of `addPoolLiquidity`: load the pool with
up to 3 retries, fetch the token account, throw a plain
`Error('Insufficient token balance')` (no WalletError code) when
`tokenBalance < tokenAmount`, a plain `Error('Insufficient SOL balance')`
when `solBalance < solAmount + 0.01 * LAMPORTS_PER_SOL`, then add
liquidity with up to 3 retries and confirm. -/
def addPoolLiquidityBody (env : AddLiqEnv) (tokenAmount solAmount : Nat) :
    Except JsError Unit :=
  match (retryAsync env.poolLoad 3 1000).result with
  | .error _ => .error ⟨none⟩
  | .ok _ =>
    if !env.tokenAccountOk then .error ⟨none⟩
    else if env.tokenBalance < tokenAmount then .error ⟨none⟩
    else if env.solBalance < solAmount + feeBufferLamports then
      .error ⟨none⟩
    else
      match (retryAsync env.addLiquidity 3 1000).result with
      | .error _ => .error ⟨none⟩
      | .ok _ => if env.confirmOk then .ok () else .error ⟨none⟩

/-- `addPoolLiquidity(wallet, poolAddress, tokenAmount, solAmount)`:
wallet check before the try block (WALLET_NOT_CONNECTED propagates), and
the catch re-throws every inner error as a WalletError with code
TRANSACTION_FAILED, so neither insufficient-balance branch surfaces an
INSUFFICIENT_BALANCE code. -/
def addPoolLiquidity (env : AddLiqEnv) (tokenAmount solAmount : Nat) :
    Except Code Unit :=
  if !env.connected then .error Code.WALLET_NOT_CONNECTED
  else
    match addPoolLiquidityBody env tokenAmount solAmount with
    | .ok r => .ok r
    | .error _ => .error Code.TRANSACTION_FAILED

/-! ## createMeteoraPool (src/src/utils.jsx lines 318-380) -/

/-- The network calls `createMeteoraPool` can issue, in program order:
`KaminoMarket.load`, `market.createPool` (one entry per retry attempt) and
`connection.confirmTransaction`. -/
inductive PoolCall where
  | marketLoad
  | createPoolCall
  | confirmCall
deriving DecidableEq, Repr

/-- The `poolConfig` argument; `initialPrice` is a JS number, so the guard
`!poolConfig.initialPrice || poolConfig.initialPrice <= 0` rejects exactly
the non-positive values. -/
structure PoolConfig where
  initialPrice : Int
deriving DecidableEq, Repr

/-- Environment for one run of `createMeteoraPool`: whether the market
load succeeds, the outcome of each `market.createPool` retry attempt, and
whether the final confirmation succeeds. -/
structure CreatePoolEnv where
  connected : Bool
  marketLoadOk : Bool
  createPool : Nat → Except JsError Unit
  confirmOk : Bool

/-- `createMeteoraPool(wallet, tokenMint, poolConfig)` together with the
list of network calls it issued.  The wallet check precedes the try block;
inside it, `KaminoMarket.load` runs BEFORE the initial-price validation,
and the validation throws a plain `Error('Initial price must be greater
than 0')` that the catch re-throws as a WalletError with code
POOL_CREATION_FAILED — the source has no INVALID_INPUT code at all. -/
def createMeteoraPool (env : CreatePoolEnv) (cfg : PoolConfig) :
    Except Code Unit × List PoolCall :=
  if !env.connected then (.error Code.WALLET_NOT_CONNECTED, [])
  else if !env.marketLoadOk then
    (.error Code.POOL_CREATION_FAILED, [PoolCall.marketLoad])
  else if cfg.initialPrice ≤ 0 then
    (.error Code.POOL_CREATION_FAILED, [PoolCall.marketLoad])
  else
    let r := retryAsync env.createPool 3 1000
    let attempts := List.replicate r.attempts PoolCall.createPoolCall
    match r.result with
    | .error _ =>
      (.error Code.POOL_CREATION_FAILED, PoolCall.marketLoad :: attempts)
    | .ok _ =>
      if env.confirmOk then
        (.ok (), PoolCall.marketLoad :: attempts ++ [PoolCall.confirmCall])
      else
        (.error Code.POOL_CREATION_FAILED,
          PoolCall.marketLoad :: attempts ++ [PoolCall.confirmCall])

/-! ## sendAndConfirmTransaction (src/src/utils.jsx lines 575-610) -/

/-- Classified chain-level failures that `connection.confirmTransaction`
or `sendRawTransaction` can report. -/
inductive ChainErr where
  | blockRefExpired
  | network
  | other
deriving DecidableEq, Repr

/-- Environment for `sendAndConfirmTransaction`: the block reference that
the single `getLatestBlockhash` call returns, and the outcome of the send
and of the confirmation on each retry attempt (attempts numbered from 1).
`sendResult` yields the signature string modelled as a Nat. -/
structure SacEnv where
  latestBlockhash : Nat
  sendResult : Nat → Except ChainErr Nat
  confirmResult : Nat → Except ChainErr Unit

/-- One attempt of the closure passed to `retryAsync`: send the serialized
bytes, then confirm against the captured blockhash; the first failure
aborts the attempt. -/
def sacAttempt (env : SacEnv) (i : Nat) : Except ChainErr Nat :=
  match env.sendResult i with
  | .error e => .error e
  | .ok sig =>
    match env.confirmResult i with
    | .error e => .error e
    | .ok _ => .ok sig

/-- Trace of one run of `sendAndConfirmTransaction`: the value returned or
the code thrown, how many times `getLatestBlockhash` was called, and the
block reference attached to each submitted payload. -/
structure SacTrace where
  result : Except Code Nat
  blockRefFetches : Nat
  submittedRefs : List Nat
deriving Repr

/-- `sendAndConfirmTransaction(connection, transaction, signers)`: fetches
the latest block reference exactly once, signs, then runs the
send-and-confirm closure under `retryAsync` with its defaults (3 attempts,
1000 ms).  The transaction object is serialized inside the closure but its
`recentBlockhash` was set once before the loop, so every retry resubmits
bytes carrying the same block reference; no path refetches it.  The catch
wraps any final error into a WalletError with code TRANSACTION_FAILED. -/
def sendAndConfirmTransaction (env : SacEnv) : SacTrace :=
  let r := retryAsync (sacAttempt env) 3 1000
  { result :=
      match r.result with
      | .ok sig => .ok sig
      | .error _ => .error Code.TRANSACTION_FAILED,
    blockRefFetches := 1,
    submittedRefs := List.replicate r.attempts env.latestBlockhash }

/-! ## meteoraService.js: market stats and trade history -/

/-- The string codes of MeteoraError used by the service functions
modelled below. -/
inductive MCode where
  | POOL_LOAD_FAILED
  | MARKET_STATS_FAILED
  | TRADE_HISTORY_FAILED
deriving DecidableEq, Repr

/-- The per-pool record built by `getMarketStats` from a successful
`pool.getPoolState()` (src/meteoraService.js lines 283-293). -/
structure PoolStat where
  address : String
  price : Int
  volume24h : Nat
  tvl : Nat
  fee : Nat
  rewardRate : Nat
deriving DecidableEq, Repr

/-- `getMarketStats()` (src/meteoraService.js lines 272-307): load the
market and its pool list (a failure there is wrapped as
MARKET_STATS_FAILED); map every pool to its stats, with a per-pool
try/catch turning a failing `getPoolState` into `null` (here: `none`);
finally `filter(stats => stats !== null)` drops the nulls, keeping the
surviving stats in their original relative order. -/
def getMarketStats (marketLoadOk : Bool) (pools : List Nat)
    (readState : Nat → Option PoolStat) : Except MCode (List PoolStat) :=
  if !marketLoadOk then .error MCode.MARKET_STATS_FAILED
  else .ok ((pools.map readState).filterMap id)

/-- A trade as returned by the pool SDK's `getTradeHistory`. -/
structure RawTrade where
  timestamp : Nat
  price : Int
  amount : Nat
  side : Bool
  fee : Nat
deriving DecidableEq, Repr

/-- The per-trade record `getTradeHistory` builds (src/meteoraService.js
lines 315-321): a field-by-field projection of the SDK trade. -/
structure Trade where
  timestamp : Nat
  price : Int
  amount : Nat
  side : Bool
  fee : Nat
deriving DecidableEq, Repr

/-- The projection applied to each trade by `trades.map(...)`. -/
def projectTrade (t : RawTrade) : Trade :=
  ⟨t.timestamp, t.price, t.amount, t.side, t.fee⟩

/-- `getTradeHistory(poolAddress, startTime)` (src/meteoraService.js lines
310-328): load the pool, fetch the trades the SDK reports since
`startTime`, and map each one to the projected record.  The list is
returned in the order the SDK produced it: no sort is applied anywhere. -/
def getTradeHistory (poolLoadOk : Bool) (trades : List RawTrade) :
    Except MCode (List Trade) :=
  if !poolLoadOk then .error MCode.TRADE_HISTORY_FAILED
  else .ok (trades.map projectTrade)

/-- Ascending-by-time order on a trade list, the order the spec asserts
for `getTradeHistory`. -/
def sortedByTime : List Trade → Bool
  | [] => true
  | [_] => true
  | a :: b :: rest => decide (a.timestamp ≤ b.timestamp) && sortedByTime (b :: rest)

/-- Ascending-by-time order on the SDK's own trade list. -/
def rawSortedByTime : List RawTrade → Bool
  | [] => true
  | [_] => true
  | a :: b :: rest => decide (a.timestamp ≤ b.timestamp) && rawSortedByTime (b :: rest)

/-! ## Theorems -/

/-- Helper: on an operation that fails on every attempt, the retry loop of
`retryAsync` runs all `n` remaining iterations and finally rethrows the
last (here: the constant) error. -/
theorem retryAux_const_error (e : ε) (d : Nat) :
    ∀ n a, 1 ≤ n →
      (retryAux (fun _ => (Except.error e : Except ε Nat)) d n a).result =
          Except.error (some e) ∧
        (retryAux (fun _ => (Except.error e : Except ε Nat)) d n a).attempts =
          n := by
  intro n
  induction n with
  | zero => intro a h; omega
  | succ k ih =>
    intro a _
    cases k with
    | zero => exact ⟨rfl, rfl⟩
    | succ m =>
      refine ⟨?_, ?_⟩
      · show (retryAux (fun _ => (Except.error e : Except ε Nat)) d
            (m + 1) (a + 1)).result = Except.error (some e)
        exact (ih (a + 1) (by omega)).1
      · show (retryAux (fun _ => (Except.error e : Except ε Nat)) d
            (m + 1) (a + 1)).attempts + 1 = m + 1 + 1
        rw [(ih (a + 1) (by omega)).2]

/-- Claim C3 (counterexample): `retryAsync` run on an operation that always
fails with a terminal-classified error and `maxAttempts = 3` invokes the
operation 3 times, not once: the executor never inspects the
classification, so a terminal failure does not abort the remaining
attempts. -/
theorem retryAsync_terminal_cex :
    (retryAsync (fun _ =>
        (Except.error ⟨ErrClass.terminal⟩ : Except ClassifiedErr Nat))
        3 1000).attempts = 3 ∧
      ¬ (retryAsync (fun _ =>
          (Except.error ⟨ErrClass.terminal⟩ : Except ClassifiedErr Nat))
          3 1000).attempts = 1 := by
  exact ⟨rfl, by decide⟩

/-- Claim C3 (amended): `retryAsync` applies no failure classification at
all: every failure, terminal or transient, is retried, so an operation
that fails on every attempt consumes all `maxAttempts` attempts and the
last error is rethrown. -/
theorem retryAsync_retries_every_failure (e : ClassifiedErr) (n d : Nat)
    (h : 1 ≤ n) :
    (retryAsync (fun _ =>
        (Except.error e : Except ClassifiedErr Nat)) n d).attempts = n ∧
      (retryAsync (fun _ =>
          (Except.error e : Except ClassifiedErr Nat)) n d).result =
        Except.error (some e) :=
  ⟨(retryAux_const_error e d n 1 h).2, (retryAux_const_error e d n 1 h).1⟩

/-- Witness for the amended Claim C3 at `maxAttempts = 3`, `delayMs = 1000`
and a terminal-classified error. -/
theorem retryAsync_retries_every_failure_witness :
    (retryAsync (fun _ =>
        (Except.error ⟨ErrClass.terminal⟩ : Except ClassifiedErr Nat))
        3 1000).attempts = 3 ∧
      (retryAsync (fun _ =>
          (Except.error ⟨ErrClass.terminal⟩ : Except ClassifiedErr Nat))
          3 1000).result = Except.error (some ⟨ErrClass.terminal⟩) :=
  retryAsync_retries_every_failure ⟨ErrClass.terminal⟩ 3 1000 (by decide)

/-- Claim C4: with `maxAttempts = 3`, on an operation that fails
transiently on attempts 1 and 2 and succeeds on attempt 3, `retryAsync`
returns the success value, makes 3 attempts, and sleeps exactly twice,
`delayMs * 1` then `delayMs * 2` (linear backoff). -/
theorem retryAsync_linear_backoff (fn : Nat → Except ClassifiedErr Nat)
    (v d : Nat)
    (h1 : fn 1 = Except.error ⟨ErrClass.transient⟩)
    (h2 : fn 2 = Except.error ⟨ErrClass.transient⟩)
    (h3 : fn 3 = Except.ok v) :
    retryAsync fn 3 d = ⟨Except.ok v, [d * 1, d * 2], 3⟩ := by
  simp [retryAsync, retryAux, h1, h2, h3]

/-- Witness for Claim C4: two transient failures then success with value 7
and `delayMs = 50`. -/
theorem retryAsync_linear_backoff_witness :
    retryAsync
        (fun i => if i ≤ 2 then
            Except.error (⟨ErrClass.transient⟩ : ClassifiedErr)
          else Except.ok 7) 3 50 =
      ⟨Except.ok 7, [50 * 1, 50 * 2], 3⟩ :=
  retryAsync_linear_backoff _ 7 50 rfl rfl rfl

/-- Claim C10: `retryAsync` called with `maxAttempts = 0` (violating the
precondition `maxAttempts ≥ 1`) never enters the loop body: the operation
is attempted zero times, no sleep happens, and the final
`throw lastError` throws the still-undefined `lastError` (modelled as
`Except.error none`), which is neither a classified error nor the
operation's result. -/
theorem retryAsync_zero_max_attempts (fn : Nat → Except ClassifiedErr Nat)
    (d : Nat) :
    retryAsync fn 0 d = ⟨Except.error none, [], 0⟩ :=
  rfl

/-- Claim C2 (counterexample): with a chain whose confirmation reports
block-reference-expired on the first attempt and succeeds on the second,
`sendAndConfirmTransaction` returns the signature but issues exactly ONE
block-reference fetch, not two, and both submissions carry the same block
reference: the retry resubmits the same bytes instead of rebuilding. -/
theorem sendAndConfirm_single_fetch_cex :
    sendAndConfirmTransaction
        ⟨99, fun _ => Except.ok 41,
          fun i => if i = 1 then Except.error ChainErr.blockRefExpired
            else Except.ok ()⟩ =
      ⟨Except.ok 41, 1, [99, 99]⟩ ∧
      ¬ (sendAndConfirmTransaction
          ⟨99, fun _ => Except.ok 41,
            fun i => if i = 1 then Except.error ChainErr.blockRefExpired
              else Except.ok ()⟩).blockRefFetches = 2 :=
  ⟨rfl, by decide⟩

/-- Claim C2 (amended): when `confirm` fails with block-reference-expired
on the first attempt and the retried submit-and-confirm succeeds on the
second, `sendAndConfirmTransaction` returns the signature, but it fetches
the block reference exactly once and submits the same block reference
twice: the retry is byte-level, the envelope is never rebuilt. -/
theorem sendAndConfirm_retries_same_blockref (env : SacEnv) (s : Nat)
    (hs1 : env.sendResult 1 = Except.ok s)
    (hc1 : env.confirmResult 1 = Except.error ChainErr.blockRefExpired)
    (hs2 : env.sendResult 2 = Except.ok s)
    (hc2 : env.confirmResult 2 = Except.ok ()) :
    sendAndConfirmTransaction env =
      ⟨Except.ok s, 1, [env.latestBlockhash, env.latestBlockhash]⟩ := by
  simp [sendAndConfirmTransaction, retryAsync, retryAux, sacAttempt,
    hs1, hc1, hs2, hc2, List.replicate]

/-- Witness for the amended Claim C2: expire-once-then-confirm at block
reference 77 and signature 42. -/
theorem sendAndConfirm_retries_same_blockref_witness :
    sendAndConfirmTransaction
        ⟨77, fun _ => Except.ok 42,
          fun i => if i = 1 then Except.error ChainErr.blockRefExpired
            else Except.ok ()⟩ =
      ⟨Except.ok 42, 1, [77, 77]⟩ :=
  sendAndConfirm_retries_same_blockref _ 42 rfl rfl rfl rfl

/-- Claim C5 (counterexample): `createMeteoraPool` with a connected wallet
and `initialPrice = 0` does NOT fail before any network call: the
`KaminoMarket.load` network call is issued before the validation runs, and
the surfaced error code is POOL_CREATION_FAILED (the source's taxonomy has
no INVALID_INPUT code), because the catch re-wraps the plain validation
error. -/
theorem createPool_zero_price_cex :
    createMeteoraPool ⟨true, true, fun _ => Except.ok (), true⟩ ⟨0⟩ =
      (Except.error Code.POOL_CREATION_FAILED, [PoolCall.marketLoad]) ∧
      ¬ (createMeteoraPool ⟨true, true, fun _ => Except.ok (), true⟩ ⟨0⟩).2 =
        [] :=
  ⟨rfl, by decide⟩

/-- Claim C5 (amended): `createMeteoraPool` with a connected wallet and any
non-positive `initialPrice` fails with code POOL_CREATION_FAILED after
exactly one network call, the market load; the pool-creation and
confirmation calls are never reached. -/
theorem createPool_nonpositive_price (env : CreatePoolEnv) (cfg : PoolConfig)
    (hc : env.connected = true) (hp : cfg.initialPrice ≤ 0) :
    createMeteoraPool env cfg =
      (Except.error Code.POOL_CREATION_FAILED, [PoolCall.marketLoad]) := by
  cases hm : env.marketLoadOk <;> simp [createMeteoraPool, hc, hm, hp]

/-- Witness for the amended Claim C5 at `initialPrice = -5`. -/
theorem createPool_nonpositive_price_witness :
    createMeteoraPool ⟨true, true, fun _ => Except.ok (), true⟩ ⟨-5⟩ =
      (Except.error Code.POOL_CREATION_FAILED, [PoolCall.marketLoad]) :=
  createPool_nonpositive_price _ _ rfl (by decide)

/-- Claim C6 (counterexample): a balance strictly below the requirement
does NOT surface an INSUFFICIENT_BALANCE error: `createToken` at balance
99999999 < 100000000 surfaces TOKEN_CREATION_FAILED (the catch re-wraps
the precheck error), and `addPoolLiquidity` with token balance 10 below
the requested 50 surfaces TRANSACTION_FAILED. -/
theorem balance_precheck_code_cex :
    createToken ⟨true, 99999999, true, true, true, true⟩
        ⟨"Tok", "TK", 1000, some 9, none⟩ =
      Except.error Code.TOKEN_CREATION_FAILED ∧
      ¬ createToken ⟨true, 99999999, true, true, true, true⟩
          ⟨"Tok", "TK", 1000, some 9, none⟩ =
        Except.error Code.INSUFFICIENT_BALANCE ∧
      addPoolLiquidity
          ⟨true, fun _ => Except.ok (), true, 10, 1000000000,
            fun _ => Except.ok (), true⟩ 50 0 =
        Except.error Code.TRANSACTION_FAILED := by
  refine ⟨rfl, ?_, rfl⟩
  intro h
  rw [show createToken ⟨true, 99999999, true, true, true, true⟩
        ⟨"Tok", "TK", 1000, some 9, none⟩ =
      Except.error Code.TOKEN_CREATION_FAILED from rfl] at h
  simp at h

/-- Claim C6 (amended): every balance precheck fires exactly when the
fetched balance is strictly below the requirement — equality passes the
check (boundary inclusive) — but the error surfaced to the caller carries
the wrapping operation's code (TOKEN_CREATION_FAILED in `createToken`,
TRANSACTION_FAILED in `addPoolLiquidity`), not INSUFFICIENT_BALANCE. -/
theorem balance_precheck_strict_boundary (env : CreateTokenEnv)
    (td : TokenData) (envA : AddLiqEnv) (ta sa : Nat) :
    (env.balance < requiredLamports →
      createTokenBody env td = Except.error ⟨some Code.INSUFFICIENT_BALANCE⟩) ∧
    (requiredLamports ≤ env.balance →
      ¬ createTokenBody env td =
        Except.error ⟨some Code.INSUFFICIENT_BALANCE⟩) ∧
    (env.connected = true → env.balance < requiredLamports →
      createToken env td = Except.error Code.TOKEN_CREATION_FAILED) ∧
    (envA.connected = true → envA.poolLoad 1 = Except.ok () →
      envA.tokenAccountOk = true → envA.tokenBalance < ta →
      addPoolLiquidity envA ta sa = Except.error Code.TRANSACTION_FAILED) := by
  refine ⟨?_, ?_, ?_, ?_⟩
  · intro h
    simp [createTokenBody, h]
  · intro h hcontra
    have hnl : ¬ env.balance < requiredLamports := by omega
    simp only [createTokenBody, if_neg hnl] at hcontra
    cases hm : env.mintOk <;> cases ht : env.tokenAccountOk <;>
      cases hmd : env.metadataOk <;> cases hmt : env.mintToOk <;>
        simp [hm, ht, hmd, hmt] at hcontra
  · intro hc hb
    simp [createToken, hc, createTokenBody, hb]
  · intro hca hpl hta hlt
    simp [addPoolLiquidity, addPoolLiquidityBody, retryAsync, retryAux,
      hca, hpl, hta, hlt]

/-- Witness for the amended Claim C6: balance 5 below the requirement, the
exact boundary balance 100000000, and an add-liquidity run with token
balance 3 below the requested 4. -/
theorem balance_precheck_strict_boundary_witness :
    createTokenBody ⟨true, 5, true, true, true, true⟩
        ⟨"N", "S", 10, some 6, none⟩ =
      Except.error ⟨some Code.INSUFFICIENT_BALANCE⟩ ∧
      ¬ createTokenBody ⟨true, 100000000, true, true, true, true⟩
          ⟨"N", "S", 10, some 6, none⟩ =
        Except.error ⟨some Code.INSUFFICIENT_BALANCE⟩ ∧
      createToken ⟨true, 5, true, true, true, true⟩
          ⟨"N", "S", 10, some 6, none⟩ =
        Except.error Code.TOKEN_CREATION_FAILED ∧
      addPoolLiquidity
          ⟨true, fun _ => Except.ok (), true, 3, 0,
            fun _ => Except.ok (), true⟩ 4 0 =
        Except.error Code.TRANSACTION_FAILED :=
  ⟨(balance_precheck_strict_boundary ⟨true, 5, true, true, true, true⟩
      ⟨"N", "S", 10, some 6, none⟩
      ⟨true, fun _ => Except.ok (), true, 3, 0, fun _ => Except.ok (), true⟩
      4 0).1 (by decide),
   (balance_precheck_strict_boundary ⟨true, 100000000, true, true, true, true⟩
      ⟨"N", "S", 10, some 6, none⟩
      ⟨true, fun _ => Except.ok (), true, 3, 0, fun _ => Except.ok (), true⟩
      4 0).2.1 (by decide),
   (balance_precheck_strict_boundary ⟨true, 5, true, true, true, true⟩
      ⟨"N", "S", 10, some 6, none⟩
      ⟨true, fun _ => Except.ok (), true, 3, 0, fun _ => Except.ok (), true⟩
      4 0).2.2.1 rfl (by decide),
   (balance_precheck_strict_boundary ⟨true, 5, true, true, true, true⟩
      ⟨"N", "S", 10, some 6, none⟩
      ⟨true, fun _ => Except.ok (), true, 3, 0, fun _ => Except.ok (), true⟩
      4 0).2.2.2 rfl rfl rfl (by decide)⟩

/-- Claim C9: in `createToken` the wallet-connectivity check runs before
the try block, so WALLET_NOT_CONNECTED propagates with its own code, while
every failure raised inside the body — including the body's own
INSUFFICIENT_BALANCE precheck error — surfaces re-wrapped as
TOKEN_CREATION_FAILED, losing the original machine-readable code. -/
theorem createToken_code_wrapping (env : CreateTokenEnv) (td : TokenData) :
    (env.connected = false →
      createToken env td = Except.error Code.WALLET_NOT_CONNECTED) ∧
    (env.connected = true → env.balance < requiredLamports →
      createTokenBody env td =
          Except.error ⟨some Code.INSUFFICIENT_BALANCE⟩ ∧
        createToken env td = Except.error Code.TOKEN_CREATION_FAILED) ∧
    (∀ e, env.connected = true → createTokenBody env td = Except.error e →
      createToken env td = Except.error Code.TOKEN_CREATION_FAILED) := by
  refine ⟨?_, ?_, ?_⟩
  · intro h
    simp [createToken, h]
  · intro hc hb
    refine ⟨by simp [createTokenBody, hb], ?_⟩
    simp [createToken, hc, createTokenBody, hb]
  · intro e hc hbody
    simp [createToken, hc, hbody]

/-- Witness for Claim C9: a disconnected wallet propagates
WALLET_NOT_CONNECTED, and a connected wallet with balance 7 below the
requirement surfaces TOKEN_CREATION_FAILED although the body threw
INSUFFICIENT_BALANCE. -/
theorem createToken_code_wrapping_witness :
    createToken ⟨false, 0, true, true, true, true⟩
        ⟨"W", "W", 5, some 2, none⟩ =
      Except.error Code.WALLET_NOT_CONNECTED ∧
      createTokenBody ⟨true, 7, true, true, true, true⟩
          ⟨"W", "W", 5, some 2, none⟩ =
        Except.error ⟨some Code.INSUFFICIENT_BALANCE⟩ ∧
      createToken ⟨true, 7, true, true, true, true⟩
          ⟨"W", "W", 5, some 2, none⟩ =
        Except.error Code.TOKEN_CREATION_FAILED :=
  ⟨(createToken_code_wrapping ⟨false, 0, true, true, true, true⟩
      ⟨"W", "W", 5, some 2, none⟩).1 rfl,
   ((createToken_code_wrapping ⟨true, 7, true, true, true, true⟩
      ⟨"W", "W", 5, some 2, none⟩).2.1 rfl (by decide)).1,
   ((createToken_code_wrapping ⟨true, 7, true, true, true, true⟩
      ⟨"W", "W", 5, some 2, none⟩).2.1 rfl (by decide)).2⟩

/-- Claim C7: `getMarketStats` returns exactly the stats of the pools
whose state read succeeds, in their original relative order, dropping each
failing pool (mapped to null) without raising; in particular over pools
[A(ok), B(throws), C(ok)] it returns exactly [A, C]. -/
theorem getMarketStats_drops_failing_pools :
    (∀ (pools : List Nat) (readState : Nat → Option PoolStat),
        getMarketStats true pools readState =
          Except.ok (pools.filterMap readState)) ∧
      getMarketStats true [0, 1, 2]
          (fun i => if i = 0 then some ⟨"A", 2, 10, 100, 3, 1⟩
            else if i = 2 then some ⟨"C", 5, 20, 200, 3, 1⟩ else none) =
        Except.ok [⟨"A", 2, 10, 100, 3, 1⟩, ⟨"C", 5, 20, 200, 3, 1⟩] := by
  constructor
  · intro pools readState
    simp [getMarketStats, List.filterMap_map]
  · rfl

/-- Claim C8 (counterexample): `getTradeHistory` applied to a pool whose
SDK reports the trades in descending time order (timestamps 5 then 3)
returns them unsorted: the function never sorts. -/
theorem getTradeHistory_unsorted_cex :
    getTradeHistory true [⟨5, 1, 2, true, 0⟩, ⟨3, 1, 2, true, 0⟩] =
      Except.ok [⟨5, 1, 2, true, 0⟩, ⟨3, 1, 2, true, 0⟩] ∧
      sortedByTime [⟨5, 1, 2, true, 0⟩, ⟨3, 1, 2, true, 0⟩] = false :=
  ⟨rfl, by decide⟩

/-- Claim C8 (amended): `getTradeHistory` maps the SDK's trade list
field-by-field, preserving its order, and applies no sort: the returned
list is ascending by time exactly when the SDK already returned it
ascending. -/
theorem getTradeHistory_preserves_order (trades : List RawTrade) :
    getTradeHistory true trades = Except.ok (trades.map projectTrade) ∧
      sortedByTime (trades.map projectTrade) = rawSortedByTime trades := by
  refine ⟨rfl, ?_⟩
  induction trades with
  | nil => rfl
  | cons a t ih =>
    cases t with
    | nil => rfl
    | cons b rest =>
      show (decide (a.timestamp ≤ b.timestamp) &&
          sortedByTime (projectTrade b :: rest.map projectTrade)) =
        (decide (a.timestamp ≤ b.timestamp) && rawSortedByTime (b :: rest))
      rw [show (projectTrade b :: rest.map projectTrade) =
        (b :: rest).map projectTrade from rfl, ih]

/-- Claim C1: at `decimals = 0` the base-unit amount of `createToken`
(src/src/utils.jsx line 289) is `supply * 10 ^ 9`, not the claimed
`supply * 10 ^ 0`: the JS expression `tokenData.decimals || 9` treats the
falsy value 0 as unspecified, so 0 decimals behaves like the default 9;
and `validateTokenData` rejects `decimals = 0` even though its own error
message declares 0 to 9 the valid range, while accepting 9.  For the
non-falsy range 1 to 9 the BigInt arithmetic is exact, as witnessed at
supply 10 ^ 12, decimals 9. -/
theorem baseUnits_decimals_zero_bug :
    baseUnits 1 (some 0) = 1000000000 ∧
      ¬ baseUnits 1 (some 0) = 1 * 10 ^ 0 ∧
      baseUnits 5 (some 0) = baseUnits 5 none ∧
      (validateTokenData ⟨"MyToken", "TOK", 1, some 0, none⟩).decimalsErr =
        some "Decimals must be between 0 and 9" ∧
      (validateTokenData ⟨"MyToken", "TOK", 1, some 9, none⟩).decimalsErr =
        none ∧
      baseUnits (10 ^ 12) (some 9) = 10 ^ 12 * 10 ^ 9 := by
  decide

end TokenGen
